import Mathlib

/-!
Shallow embedding of the trip-booking core of the repository
(src/core/models.py and src/core/views.py): trip lifecycle, seat
inventory, booking/cancellation, and rating aggregation.

Conventions of the embedding:
* Django `DecimalField` values (price, total_price, average ratings) are
  modelled as exact rationals `ℚ`; the source multiplies a `Decimal`
  price by an integer seat count, which is exact.
* Timestamps are modelled as integers; `timezone.now()` becomes an
  explicit `now` parameter.
* Each view either rejects (returns `none`, leaving all state as it
  was) or succeeds with the updated records (`some`), mirroring the
  fact that the source views mutate nothing before the final save.
-/

namespace TripCore

/-- Trip.Status choices in src/core/models.py. -/
inductive TripStatus where
  | Upcoming
  | Ongoing
  | Completed
  | Cancelled
deriving DecidableEq, Repr

/-- TripBooking.Status choices in src/core/models.py. -/
inductive BookingStatus where
  | Confirmed
  | Cancelled
  | Completed
deriving DecidableEq, Repr

/-- Driver.Status choices in src/core/models.py. -/
inductive DriverStatus where
  | Available
  | OnTrip
  | OffDuty
  | Suspended
deriving DecidableEq, Repr

/-- The fields of the Trip model that the core operations read or
write (src/core/models.py, class Trip). `driver` and `vehicle` are
nullable foreign keys, modelled as optional ids. -/
structure Trip where
  id : Nat
  driver : Option Nat
  vehicle : Option Nat
  departure_time : Int
  price : ℚ
  available_seats : Int
  status : TripStatus
  cancelled_by : Option String
  cancellation_reason : Option String
deriving DecidableEq, Repr

/-- The fields of the TripBooking model that the core operations read
or write (src/core/models.py, class TripBooking). -/
structure Booking where
  user : Nat
  seats_booked : Int
  total_price : ℚ
  status : BookingStatus
deriving DecidableEq, Repr

/-- Driver fields touched by the trip lifecycle
(src/core/models.py, class Driver). -/
structure DriverRec where
  status : DriverStatus
  total_trips : Int
deriving DecidableEq, Repr

/-- A trip together with its bookings, in creation order.  Booking
identity is positional: the view looks bookings up by primary key and
the embedding looks them up by index. -/
structure TripState where
  trip : Trip
  bookings : List Booking
deriving DecidableEq, Repr

/-- Trip.is_bookable (src/core/models.py lines 284-290): status is
Upcoming, available_seats > 0 and departure_time strictly after
`timezone.now()`. -/
def is_bookable (t : Trip) (now : Int) : Bool :=
  t.status = TripStatus.Upcoming ∧ t.available_seats > 0 ∧ t.departure_time > now

/-- The existence check of trip_book_view (src/core/views.py lines
722-727): a Confirmed booking of this trip by this user. -/
def hasConfirmedBooking (bs : List Booking) (userId : Nat) : Bool :=
  bs.any fun b => b.user = userId ∧ b.status = BookingStatus.Confirmed

/-- trip_book_view (src/core/views.py lines 712-760).  Rejects when
the trip is not bookable, when the user already has a Confirmed
booking, when the form is invalid (seats < 1, the form field's
min_value), or when seats exceed available_seats.  On success it
creates a Confirmed booking with total_price = price * seats and
decrements available_seats by seats. -/
def trip_book (st : TripState) (userId : Nat) (seats : Int) (now : Int) :
    Option TripState :=
  if is_bookable st.trip now then
    if hasConfirmedBooking st.bookings userId then none
    else if seats < 1 then none
    else if seats > st.trip.available_seats then none
    else some
      { trip := { st.trip with
          available_seats := st.trip.available_seats - seats }
        bookings := st.bookings ++
          [{ user := userId
             seats_booked := seats
             total_price := st.trip.price * (seats : ℚ)
             status := BookingStatus.Confirmed }] }
  else none

/-- cancel_booking_view (src/core/views.py lines 787-812).  The view
fetches the booking by id scoped to the requesting user
(get_object_or_404 with user=request.user); rejects when the booking
is not Confirmed or the trip is not Upcoming; on success sets the
booking to Cancelled and restores the seats to the trip. -/
def cancel_booking (st : TripState) (idx : Nat) (userId : Nat) :
    Option TripState :=
  match st.bookings[idx]? with
  | none => none
  | some b =>
    if b.user ≠ userId then none
    else if b.status ≠ BookingStatus.Confirmed then none
    else if st.trip.status ≠ TripStatus.Upcoming then none
    else some
      { trip := { st.trip with
          available_seats := st.trip.available_seats + b.seats_booked }
        bookings := st.bookings.set idx
          { b with status := BookingStatus.Cancelled } }

/-- trip_cancel_view (src/core/views.py lines 627-654).  Rejects when
the trip is already Cancelled, or when the CancelTripForm is invalid
(the cancellation_reason CharField is required, so an empty reason is
rejected).  On success sets status to Cancelled, records cancelled_by
and the reason, and updates every booking of the trip to Cancelled. -/
def trip_cancel (st : TripState) (reason : String) : Option TripState :=
  if st.trip.status = TripStatus.Cancelled then none
  else if reason = "" then none
  else some
    { trip := { st.trip with
        status := TripStatus.Cancelled
        cancelled_by := some "Administrator"
        cancellation_reason := some reason }
      bookings := st.bookings.map fun b =>
        { b with status := BookingStatus.Cancelled } }

/-- driver_start_trip_view (src/core/views.py lines 981-1007).  The
trip is fetched with driver=driver, so a trip not assigned to the
requesting driver is a 404; rejects unless status is Upcoming; on
success the trip becomes Ongoing and the driver goes On Trip. -/
def driver_start_trip (st : TripState) (d : DriverRec) (driverId : Nat) :
    Option (TripState × DriverRec) :=
  if st.trip.driver ≠ some driverId then none
  else if st.trip.status ≠ TripStatus.Upcoming then none
  else some
    ({ trip := { st.trip with status := TripStatus.Ongoing }
       bookings := st.bookings },
     { d with status := DriverStatus.OnTrip })

/-- driver_complete_trip_view (src/core/views.py lines 1010-1044).
The trip is fetched with driver=driver; rejects unless status is
Ongoing; on success the trip becomes Completed, every Confirmed
booking becomes Completed, the driver becomes Available and
total_trips is incremented. -/
def driver_complete_trip (st : TripState) (d : DriverRec) (driverId : Nat) :
    Option (TripState × DriverRec) :=
  if st.trip.driver ≠ some driverId then none
  else if st.trip.status ≠ TripStatus.Ongoing then none
  else some
    ({ trip := { st.trip with status := TripStatus.Completed }
       bookings := st.bookings.map fun b =>
         if b.status = BookingStatus.Confirmed then
           { b with status := BookingStatus.Completed }
         else b },
     { d with
        status := DriverStatus.Available
        total_trips := d.total_trips + 1 })

/-- The fields of the Rating model that rate_trip_view writes
(src/core/models.py, class Rating): the rated trip, the rating user,
the trip's driver and vehicle snapshotted at rating time, and the two
nullable 1-5 star values. -/
structure Rating where
  tripId : Nat
  user : Nat
  driver : Option Nat
  vehicle : Option Nat
  driver_rating : Option Int
  vehicle_rating : Option Int
deriving DecidableEq, Repr

/-- The rating-side state rate_trip_view touches: the table of all
ratings plus the running averages stored on one driver and one
vehicle record. -/
structure RateState where
  ratings : List Rating
  driver_avg : ℚ
  vehicle_avg : ℚ
deriving DecidableEq, Repr

/-- The non-null driver_rating values of all ratings referencing the
given driver: the inputs of `Avg('driver_rating')` over
`Rating.objects.filter(driver=...)`, which skips nulls. -/
def driverRatingVals (rs : List Rating) (dId : Nat) : List Int :=
  (rs.filter fun r => r.driver = some dId).filterMap fun r => r.driver_rating

/-- The non-null vehicle_rating values of all ratings referencing the
given vehicle. -/
def vehicleRatingVals (rs : List Rating) (vId : Nat) : List Int :=
  (rs.filter fun r => r.vehicle = some vId).filterMap fun r => r.vehicle_rating

/-- SQL AVG over a list of integers: `none` when the list is empty,
otherwise the exact rational mean, sum divided by count. -/
def avgOpt (vals : List Int) : Option ℚ :=
  if vals.isEmpty then none
  else some ((vals.sum : ℚ) / (vals.length : ℚ))

/-- The existence check of rate_trip_view: a Rating for this trip by
this user (the model also declares unique_together on trip, user). -/
def hasRating (rs : List Rating) (tripId userId : Nat) : Bool :=
  rs.any fun r => r.tripId = tripId ∧ r.user = userId

/-- rate_trip_view (src/core/views.py lines 819-874).  Rejects when
the booking's trip is not Completed, when a Rating for (trip, user)
already exists, or when the RatingForm is invalid (both star choices
are required 1-5 values).  On success it inserts the Rating
(snapshotting the trip's driver and vehicle), then recomputes the
driver's average as AVG(driver_rating) over all ratings referencing
that driver, writing it only when the aggregate is truthy (`if avg:`
in the source skips both NULL and 0), and analogously for the
vehicle. -/
def rate_trip (t : Trip) (userId : Nat) (dr vr : Int) (st : RateState) :
    Option RateState :=
  if t.status ≠ TripStatus.Completed then none
  else if hasRating st.ratings t.id userId then none
  else if ¬(1 ≤ dr ∧ dr ≤ 5 ∧ 1 ≤ vr ∧ vr ≤ 5) then none
  else
    let newRatings := st.ratings ++
      [{ tripId := t.id, user := userId, driver := t.driver,
         vehicle := t.vehicle, driver_rating := some dr,
         vehicle_rating := some vr }]
    let davg :=
      match t.driver with
      | none => st.driver_avg
      | some dId =>
        match avgOpt (driverRatingVals newRatings dId) with
        | none => st.driver_avg
        | some a => if a = 0 then st.driver_avg else a
    let vavg :=
      match t.vehicle with
      | none => st.vehicle_avg
      | some vId =>
        match avgOpt (vehicleRatingVals newRatings vId) with
        | none => st.vehicle_avg
        | some a => if a = 0 then st.vehicle_avg else a
    some { ratings := newRatings, driver_avg := davg, vehicle_avg := vavg }

/-- The booking-side operations a passenger can direct at one trip,
for the inventory-conservation invariant: a booking attempt and a
booking-cancellation attempt. -/
inductive Op where
  | book (userId : Nat) (seats : Int) (now : Int)
  | cancel (idx : Nat) (userId : Nat)
deriving DecidableEq, Repr

/-- Apply one operation; a rejected operation leaves the state
unchanged, as in the source, where rejected requests mutate
nothing. -/
def applyOp (st : TripState) (op : Op) : TripState :=
  match op with
  | Op.book userId seats now =>
    match trip_book st userId seats now with
    | some st' => st'
    | none => st
  | Op.cancel idx userId =>
    match cancel_booking st idx userId with
    | some st' => st'
    | none => st

/-- Run a sequence of booking operations from a state. -/
def run (st : TripState) (ops : List Op) : TripState :=
  ops.foldl applyOp st

/-- The seat contribution of a booking when Confirmed. -/
def confSeat (b : Booking) : Int :=
  if b.status = BookingStatus.Confirmed then b.seats_booked else 0

/-- The seat contribution of a booking when Cancelled. -/
def cancSeat (b : Booking) : Int :=
  if b.status = BookingStatus.Cancelled then b.seats_booked else 0

/-- Sum of seats_booked over the Confirmed bookings of a trip. -/
def confirmedSeats (bs : List Booking) : Int :=
  (bs.map confSeat).sum

/-- Sum of seats_booked over the Cancelled bookings of a trip. -/
def cancelledSeats (bs : List Booking) : Int :=
  (bs.map cancSeat).sum

/-- A concrete upcoming trip used by the witness statements: 3 seats
at price 10.00, departing at time 100. -/
def exTrip : Trip :=
  { id := 1, driver := some 1, vehicle := some 1, departure_time := 100,
    price := 10, available_seats := 3, status := TripStatus.Upcoming,
    cancelled_by := none, cancellation_reason := none }

/-- A Confirmed example booking of 2 seats at total price 20.00. -/
def exBooking : Booking :=
  { user := 7, seats_booked := 2, total_price := 20,
    status := BookingStatus.Confirmed }

/-- The example trip while Ongoing, with the example booking
confirmed and a second, already cancelled, booking. -/
def exOngoingSt : TripState :=
  { trip := { exTrip with status := TripStatus.Ongoing, available_seats := 1 }
    bookings := [exBooking,
      { exBooking with user := 8, status := BookingStatus.Cancelled }] }

/-- The example trip after completion. -/
def exCompletedSt : TripState :=
  { trip := { exTrip with status := TripStatus.Completed, available_seats := 1 }
    bookings := [exBooking] }

/-- The example trip after cancellation. -/
def exCancelledSt : TripState :=
  { trip := { exTrip with status := TripStatus.Cancelled, available_seats := 1 }
    bookings := [exBooking] }

/-- An example driver record, on a trip with 5 completed trips. -/
def exDriver : DriverRec :=
  { status := DriverStatus.OnTrip, total_trips := 5 }

/-- A 4-star rating for driver 1 and vehicle 1, given on another trip
by another passenger. -/
def exRating4 : Rating :=
  { tripId := 2, user := 9, driver := some 1, vehicle := some 1,
    driver_rating := some 4, vehicle_rating := some 4 }

/-- Rating state holding the single 4-star rating, with both averages
already recomputed to 4.00. -/
def exRateSt : RateState :=
  { ratings := [exRating4], driver_avg := 4, vehicle_avg := 4 }

/-- C1: for a bookable trip and a passenger with no existing Confirmed
booking, a booking of `seats` with 1 ≤ seats ≤ available_seats succeeds,
creating a Confirmed TripBooking with total_price = price × seats (exact
decimal arithmetic) and decrementing available_seats by seats. -/
theorem trip_book_success (st : TripState) (userId : Nat) (seats now : Int)
    (h1 : is_bookable st.trip now = true)
    (h2 : hasConfirmedBooking st.bookings userId = false)
    (h3 : 1 ≤ seats) (h4 : seats ≤ st.trip.available_seats) :
    trip_book st userId seats now = some
      { trip := { st.trip with
          available_seats := st.trip.available_seats - seats }
        bookings := st.bookings ++
          [{ user := userId, seats_booked := seats,
             total_price := st.trip.price * (seats : ℚ),
             status := BookingStatus.Confirmed }] } := by
  simp [trip_book, h1, h2, not_lt.mpr h3, not_lt.mpr h4]

/-- Witness for C1: booking 2 seats on the example trip at time 0
yields a Confirmed booking of total price 10.00 × 2 = 20.00 and
leaves 1 of the 3 seats. -/
theorem trip_book_success_witness :
    trip_book ⟨exTrip, []⟩ 7 2 0 = some
      { trip := { exTrip with available_seats := exTrip.available_seats - 2 }
        bookings := [{ user := 7, seats_booked := 2,
                       total_price := exTrip.price * ((2 : Int) : ℚ),
                       status := BookingStatus.Confirmed }] } ∧
    exTrip.price * ((2 : Int) : ℚ) = 20 ∧
    exTrip.available_seats - 2 = 1 :=
  ⟨trip_book_success ⟨exTrip, []⟩ 7 2 0 (by decide) (by decide)
      (by decide) (by decide),
   by norm_num [exTrip], by decide⟩

/-- C2: a booking request is rejected exactly when the trip is not
bookable in the spec's sense (Upcoming, seats remaining, departure
strictly in the future at call time), or a Confirmed booking for the
pair already exists, or seats < 1, or seats exceed available_seats;
and a rejected request leaves the state unchanged. -/
theorem trip_book_rejected_iff (st : TripState) (userId : Nat)
    (seats now : Int) :
    (trip_book st userId seats now = none ↔
      (¬(st.trip.status = TripStatus.Upcoming ∧
          0 < st.trip.available_seats ∧ now < st.trip.departure_time) ∨
        hasConfirmedBooking st.bookings userId = true ∨
        seats < 1 ∨ st.trip.available_seats < seats)) ∧
    (trip_book st userId seats now = none →
      applyOp st (Op.book userId seats now) = st) := by
  constructor
  · simp only [trip_book, is_bookable]
    split_ifs with hb he h1 h2 <;> simp_all [decide_eq_true_eq]
  · intro h
    simp [applyOp, h]

/-- Witness for C2: requesting 5 seats on the 3-seat example trip is
rejected, and the rejected request leaves the state unchanged. -/
theorem trip_book_rejected_iff_witness :
    ((trip_book ⟨exTrip, []⟩ 7 5 0 = none ↔
        (¬(exTrip.status = TripStatus.Upcoming ∧
            0 < exTrip.available_seats ∧
            (0 : Int) < exTrip.departure_time) ∨
          hasConfirmedBooking [] 7 = true ∨
          (5 : Int) < 1 ∨ exTrip.available_seats < 5)) ∧
      (trip_book ⟨exTrip, []⟩ 7 5 0 = none →
        applyOp ⟨exTrip, []⟩ (Op.book 7 5 0) = ⟨exTrip, []⟩)) ∧
    trip_book ⟨exTrip, []⟩ 7 5 0 = none :=
  ⟨trip_book_rejected_iff ⟨exTrip, []⟩ 7 5 0, by decide⟩

/-- Helper: the success path of cancel_booking_view, shared by the
claims about cancellation.  When the indexed booking belongs to the
user, is Confirmed, and the trip is Upcoming, the view sets the
booking to Cancelled and restores its seats. -/
theorem cancel_booking_success (st : TripState) (idx : Nat) (userId : Nat)
    (b : Booking) (hb : st.bookings[idx]? = some b) (hu : b.user = userId)
    (h1 : b.status = BookingStatus.Confirmed)
    (h2 : st.trip.status = TripStatus.Upcoming) :
    cancel_booking st idx userId = some
      { trip := { st.trip with
          available_seats := st.trip.available_seats + b.seats_booked }
        bookings := st.bookings.set idx
          { b with status := BookingStatus.Cancelled } } := by
  simp [cancel_booking, hb, hu, h1, h2]

/-- C3: a booking cancellation by the booking's own user is rejected
exactly when the booking is not Confirmed or the trip is not Upcoming;
when both hold, it succeeds, setting the booking to Cancelled and
adding its seats_booked back to the trip's available_seats. -/
theorem cancel_booking_spec (st : TripState) (idx : Nat) (userId : Nat)
    (b : Booking) (hb : st.bookings[idx]? = some b) (hu : b.user = userId) :
    (cancel_booking st idx userId = none ↔
      (b.status ≠ BookingStatus.Confirmed ∨
        st.trip.status ≠ TripStatus.Upcoming)) ∧
    (b.status = BookingStatus.Confirmed →
      st.trip.status = TripStatus.Upcoming →
      cancel_booking st idx userId = some
        { trip := { st.trip with
            available_seats := st.trip.available_seats + b.seats_booked }
          bookings := st.bookings.set idx
            { b with status := BookingStatus.Cancelled } }) := by
  constructor
  · simp only [cancel_booking, hb]
    rw [if_neg (by simp [hu])]
    split_ifs with h1 h2 <;> simp_all
  · intro h1 h2
    exact cancel_booking_success st idx userId b hb hu h1 h2

/-- Witness for C3: cancelling the example Confirmed booking on the
still-Upcoming example trip succeeds and restores the 2 seats. -/
theorem cancel_booking_spec_witness :
    (cancel_booking ⟨{ exTrip with available_seats := 1 }, [exBooking]⟩ 0 7 =
        none ↔
      (exBooking.status ≠ BookingStatus.Confirmed ∨
        ({ exTrip with available_seats := 1 } : Trip).status ≠
          TripStatus.Upcoming)) ∧
    (exBooking.status = BookingStatus.Confirmed →
      ({ exTrip with available_seats := 1 } : Trip).status =
        TripStatus.Upcoming →
      cancel_booking ⟨{ exTrip with available_seats := 1 }, [exBooking]⟩ 0 7 =
        some
          { trip := { { exTrip with available_seats := 1 } with
              available_seats :=
                ({ exTrip with available_seats := 1 } : Trip).available_seats +
                  exBooking.seats_booked }
            bookings := [exBooking].set 0
              { exBooking with status := BookingStatus.Cancelled } }) :=
  cancel_booking_spec ⟨{ exTrip with available_seats := 1 }, [exBooking]⟩
    0 7 exBooking (by decide) (by decide)

/-- C4: booking then immediately cancelling that same booking, while
the trip is still Upcoming, restores available_seats to its
pre-booking value. -/
theorem book_then_cancel_roundtrip (st : TripState) (userId : Nat)
    (seats now : Int) (st1 : TripState)
    (h : trip_book st userId seats now = some st1) :
    ∃ st2, cancel_booking st1 st.bookings.length userId = some st2 ∧
      st2.trip.available_seats = st.trip.available_seats := by
  have hup : st.trip.status = TripStatus.Upcoming := by
    by_contra hne
    simp [trip_book, is_bookable, hne] at h
  simp only [trip_book] at h
  split_ifs at h with hb he h1 h2
  simp only [Option.some.injEq] at h
  subst h
  refine ⟨_, cancel_booking_success _ st.bookings.length userId _
    (List.getElem?_concat_length _ _) rfl rfl hup, ?_⟩
  simp only
  omega

/-- Witness for C4: booking 2 of the 3 seats of the example trip and
cancelling the created booking brings available_seats back to 3. -/
theorem book_then_cancel_roundtrip_witness :
    (∃ st2, cancel_booking
        ⟨{ exTrip with available_seats := exTrip.available_seats - 2 },
          [{ user := 7, seats_booked := 2,
             total_price := exTrip.price * ((2 : Int) : ℚ),
             status := BookingStatus.Confirmed }]⟩
        (⟨exTrip, []⟩ : TripState).bookings.length 7 = some st2 ∧
      st2.trip.available_seats =
        (⟨exTrip, []⟩ : TripState).trip.available_seats) :=
  book_then_cancel_roundtrip ⟨exTrip, []⟩ 7 2 0 _ rfl

/-- C5: completing a trip succeeds only for the trip's assigned driver
on an Ongoing trip; on success the trip becomes Completed, every
Confirmed booking becomes Completed while other bookings are
unchanged, the driver becomes Available and total_trips grows by 1. -/
theorem driver_complete_trip_spec (st : TripState) (d : DriverRec)
    (driverId : Nat) :
    (driver_complete_trip st d driverId = none ↔
      st.trip.driver ≠ some driverId ∨ st.trip.status ≠ TripStatus.Ongoing) ∧
    (∀ st' d', driver_complete_trip st d driverId = some (st', d') →
      st'.trip.status = TripStatus.Completed ∧
      d'.status = DriverStatus.Available ∧
      d'.total_trips = d.total_trips + 1 ∧
      st'.bookings.length = st.bookings.length ∧
      ∀ (i : Nat) (b : Booking), st.bookings[i]? = some b →
        st'.bookings[i]? = some
          (if b.status = BookingStatus.Confirmed then
            { b with status := BookingStatus.Completed }
          else b)) := by
  constructor
  · simp only [driver_complete_trip]
    split_ifs with h1 h2 <;> simp_all
  · intro st' d' h
    simp only [driver_complete_trip] at h
    split_ifs at h with h1 h2
    simp only [Option.some.injEq, Prod.mk.injEq] at h
    obtain ⟨rfl, rfl⟩ := h
    refine ⟨rfl, rfl, rfl, by simp, ?_⟩
    intro i b hb
    simp [List.getElem?_map, hb]

/-- Witness for C5: completing the Ongoing example trip flips the
Confirmed booking to Completed, keeps the Cancelled one, frees the
driver and bumps total_trips from 5 to 6. -/
theorem driver_complete_trip_spec_witness :
    ((driver_complete_trip exOngoingSt exDriver 1 = none ↔
        exOngoingSt.trip.driver ≠ some 1 ∨
          exOngoingSt.trip.status ≠ TripStatus.Ongoing) ∧
      (∀ st' d', driver_complete_trip exOngoingSt exDriver 1 =
          some (st', d') →
        st'.trip.status = TripStatus.Completed ∧
        d'.status = DriverStatus.Available ∧
        d'.total_trips = exDriver.total_trips + 1 ∧
        st'.bookings.length = exOngoingSt.bookings.length ∧
        ∀ (i : Nat) (b : Booking), exOngoingSt.bookings[i]? = some b →
          st'.bookings[i]? = some
            (if b.status = BookingStatus.Confirmed then
              { b with status := BookingStatus.Completed }
            else b))) ∧
    (driver_complete_trip exOngoingSt exDriver 1).map
        (fun p => (p.1.trip.status, p.1.bookings.map Booking.status,
          p.2.status, p.2.total_trips)) =
      some (TripStatus.Completed,
        [BookingStatus.Completed, BookingStatus.Cancelled],
        DriverStatus.Available, 6) :=
  ⟨driver_complete_trip_spec exOngoingSt exDriver 1, by decide⟩

/-- C6: cancelling a trip is rejected when it is already Cancelled; a
non-Cancelled trip with a non-empty reason is cancelled successfully,
recording cancelled_by and the mandatory reason and forcing every
booking, whatever its prior status, to Cancelled. -/
theorem trip_cancel_spec (st : TripState) (reason : String) :
    (st.trip.status = TripStatus.Cancelled → trip_cancel st reason = none) ∧
    (st.trip.status ≠ TripStatus.Cancelled → reason ≠ "" →
      trip_cancel st reason = some
        { trip := { st.trip with
            status := TripStatus.Cancelled
            cancelled_by := some "Administrator"
            cancellation_reason := some reason }
          bookings := st.bookings.map fun b =>
            { b with status := BookingStatus.Cancelled } }) ∧
    (∀ st', trip_cancel st reason = some st' →
      st'.trip.status = TripStatus.Cancelled ∧
      st'.trip.cancelled_by = some "Administrator" ∧
      st'.trip.cancellation_reason = some reason ∧
      st'.bookings.length = st.bookings.length ∧
      ∀ (i : Nat) (b : Booking), st.bookings[i]? = some b →
        st'.bookings[i]? = some { b with status := BookingStatus.Cancelled }) := by
  refine ⟨fun h => by simp [trip_cancel, h], fun h1 h2 => by
    simp [trip_cancel, h1, h2], ?_⟩
  intro st' h
  simp only [trip_cancel] at h
  split_ifs at h with h1 h2
  simp only [Option.some.injEq] at h
  subst h
  refine ⟨rfl, rfl, rfl, by simp, ?_⟩
  intro i b hb
  simp [List.getElem?_map, hb]

/-- Witness for C6: cancelling the Completed example trip (prior
bookings Confirmed) records the reason and cascades the booking to
Cancelled. -/
theorem trip_cancel_spec_witness :
    ((exCompletedSt.trip.status = TripStatus.Cancelled →
        trip_cancel exCompletedSt "storm" = none) ∧
      (exCompletedSt.trip.status ≠ TripStatus.Cancelled → "storm" ≠ "" →
        trip_cancel exCompletedSt "storm" = some
          { trip := { exCompletedSt.trip with
              status := TripStatus.Cancelled
              cancelled_by := some "Administrator"
              cancellation_reason := some "storm" }
            bookings := exCompletedSt.bookings.map fun b =>
              { b with status := BookingStatus.Cancelled } }) ∧
      (∀ st', trip_cancel exCompletedSt "storm" = some st' →
        st'.trip.status = TripStatus.Cancelled ∧
        st'.trip.cancelled_by = some "Administrator" ∧
        st'.trip.cancellation_reason = some "storm" ∧
        st'.bookings.length = exCompletedSt.bookings.length ∧
        ∀ (i : Nat) (b : Booking), exCompletedSt.bookings[i]? = some b →
          st'.bookings[i]? = some
            { b with status := BookingStatus.Cancelled })) ∧
    (trip_cancel exCancelledSt "storm" = none) :=
  ⟨trip_cancel_spec exCompletedSt "storm", by decide⟩

/-- C7 counterexample: the claim that Completed is a terminal trip
state is false — trip_cancel_view only guards against status ==
Cancelled, so cancelling the Completed example trip succeeds and
changes its status to Cancelled. -/
theorem completed_not_terminal_counterexample :
    exCompletedSt.trip.status = TripStatus.Completed ∧
    (trip_cancel exCompletedSt "storm").map (fun s => s.trip.status) =
      some TripStatus.Cancelled := by decide

/-- C7 amended: Cancelled is terminal for all three operations, and a
Completed trip is rejected by startTrip and completeTrip; but
cancelTrip does move a Completed (or Ongoing) trip to Cancelled, its
only guard being status != Cancelled. -/
theorem terminal_states_amended (st : TripState) (reason : String)
    (d : DriverRec) (driverId : Nat) :
    (st.trip.status = TripStatus.Cancelled →
      trip_cancel st reason = none ∧
      driver_start_trip st d driverId = none ∧
      driver_complete_trip st d driverId = none) ∧
    (st.trip.status = TripStatus.Completed →
      driver_start_trip st d driverId = none ∧
      driver_complete_trip st d driverId = none ∧
      (reason ≠ "" →
        (trip_cancel st reason).map (fun s => s.trip.status) =
          some TripStatus.Cancelled)) := by
  constructor
  · intro h
    refine ⟨by simp [trip_cancel, h], ?_, ?_⟩ <;>
      simp [driver_start_trip, driver_complete_trip, h]
  · intro h
    refine ⟨?_, ?_, fun hr => ?_⟩
    · simp [driver_start_trip, h]
    · simp [driver_complete_trip, h]
    · simp [trip_cancel, h, hr]

/-- Witness for C7 amended: on the Cancelled example state all three
operations reject; on the Completed example state start and complete
reject while cancel yields status Cancelled. -/
theorem terminal_states_amended_witness :
    (trip_cancel exCancelledSt "storm" = none ∧
      driver_start_trip exCancelledSt exDriver 1 = none ∧
      driver_complete_trip exCancelledSt exDriver 1 = none) ∧
    (driver_start_trip exCompletedSt exDriver 1 = none ∧
      driver_complete_trip exCompletedSt exDriver 1 = none ∧
      ("storm" ≠ "" →
        (trip_cancel exCompletedSt "storm").map (fun s => s.trip.status) =
          some TripStatus.Cancelled)) :=
  ⟨(terminal_states_amended exCancelledSt "storm" exDriver 1).1 rfl,
   (terminal_states_amended exCompletedSt "storm" exDriver 1).2 rfl⟩

/-- C10: cancelling a trip never touches available_seats — the seats
held by the cascaded-to-Cancelled bookings are not restored — and
every booking of the trip ends up Cancelled with its seats_booked
intact. -/
theorem trip_cancel_keeps_available_seats (st : TripState) (reason : String)
    (st' : TripState) (h : trip_cancel st reason = some st') :
    st'.trip.available_seats = st.trip.available_seats ∧
    (∀ b' ∈ st'.bookings, b'.status = BookingStatus.Cancelled) ∧
    ∀ (i : Nat) (b : Booking), st.bookings[i]? = some b →
      st'.bookings[i]? = some { b with status := BookingStatus.Cancelled } := by
  simp only [trip_cancel] at h
  split_ifs at h with h1 h2
  simp only [Option.some.injEq] at h
  subst h
  refine ⟨rfl, ?_, ?_⟩
  · intro b' hb'
    simp only [List.mem_map] at hb'
    obtain ⟨b, -, rfl⟩ := hb'
    rfl
  · intro i b hb
    simp [List.getElem?_map, hb]

/-- Witness for C10: cancelling the example state with one Confirmed
2-seat booking and 1 free seat leaves available_seats at 1 and the
booking's seats are not restored. -/
theorem trip_cancel_keeps_available_seats_witness :
    (trip_cancel ⟨{ exTrip with available_seats := 1 }, [exBooking]⟩
        "storm").map (fun s => s.trip.available_seats) = some 1 ∧
    exBooking.status = BookingStatus.Confirmed ∧
    exBooking.seats_booked = 2 := by
  refine ⟨?_, by decide, by decide⟩
  have h := trip_cancel_keeps_available_seats
    ⟨{ exTrip with available_seats := 1 }, [exBooking]⟩ "storm" _ rfl
  simp only [Option.map, h.1]
  decide

/-- Appending a booking adds its Confirmed-seat contribution. -/
lemma confirmedSeats_append (bs : List Booking) (b : Booking) :
    confirmedSeats (bs ++ [b]) = confirmedSeats bs + confSeat b := by
  simp [confirmedSeats]

/-- Replacing the booking at a valid index adjusts the Confirmed-seat
sum by the difference of contributions. -/
lemma confirmedSeats_set (bs : List Booking) (i : Nat) (b b' : Booking)
    (hb : bs[i]? = some b) :
    confirmedSeats (bs.set i b') =
      confirmedSeats bs - confSeat b + confSeat b' := by
  obtain ⟨hi, he⟩ := List.getElem?_eq_some.mp hb
  rw [confirmedSeats, List.map_set, List.sum_set']
  rw [dif_pos (by simpa using hi)]
  simp only [List.getElem_map, he]
  rw [confirmedSeats]
  ring

/-- A booking list whose members all hold at least one seat has a
nonnegative Cancelled-seat sum. -/
lemma cancelledSeats_nonneg (bs : List Booking)
    (h : ∀ b ∈ bs, 1 ≤ b.seats_booked) : 0 ≤ cancelledSeats bs := by
  induction bs with
  | nil => simp [cancelledSeats]
  | cons x xs ih =>
    have hx := h x (List.mem_cons_self x xs)
    have hxs := ih fun b hb => h b (List.mem_cons_of_mem x hb)
    simp only [cancelledSeats, List.map_cons, List.sum_cons] at *
    have : 0 ≤ cancSeat x := by
      unfold cancSeat; split_ifs <;> omega
    omega

/-- The inductive invariant of the booking manager: every booking
holds at least one seat, available_seats is nonnegative, and
available_seats equals its creation value minus the seats held by
Confirmed bookings. -/
def SeatInv (init : Int) (st : TripState) : Prop :=
  (∀ b ∈ st.bookings, 1 ≤ b.seats_booked) ∧
  0 ≤ st.trip.available_seats ∧
  st.trip.available_seats = init - confirmedSeats st.bookings

/-- One booking or cancellation step preserves the seat invariant. -/
lemma seatInv_applyOp (init : Int) (st : TripState) (op : Op)
    (h : SeatInv init st) : SeatInv init (applyOp st op) := by
  obtain ⟨hall, hpos, heq⟩ := h
  cases op with
  | book userId seats now =>
    simp only [applyOp]
    cases hres : trip_book st userId seats now with
    | none => exact ⟨hall, hpos, heq⟩
    | some st1 =>
      simp only [trip_book] at hres
      split_ifs at hres with hb he h1 h2
      simp only [Option.some.injEq] at hres
      subst hres
      refine ⟨?_, ?_, ?_⟩
      · intro b hb'
        rcases List.mem_append.mp hb' with hmem | hmem
        · exact hall b hmem
        · simp only [List.mem_singleton] at hmem
          subst hmem
          show (1 : Int) ≤ seats
          omega
      · show (0 : Int) ≤ st.trip.available_seats - seats
        omega
      · show st.trip.available_seats - seats = init - confirmedSeats _
        rw [confirmedSeats_append]
        simp only [confSeat]
        norm_num
        omega
  | cancel idx userId =>
    simp only [applyOp]
    cases hres : cancel_booking st idx userId with
    | none => exact ⟨hall, hpos, heq⟩
    | some st1 =>
      simp only [cancel_booking] at hres
      cases hb : st.bookings[idx]? with
      | none => rw [hb] at hres; cases hres
      | some b =>
        rw [hb] at hres
        by_cases h1 : b.user ≠ userId
        · simp [h1] at hres
        by_cases h2 : b.status ≠ BookingStatus.Confirmed
        · simp [h1, h2] at hres
        by_cases h3 : st.trip.status ≠ TripStatus.Upcoming
        · simp [h1, h2, h3] at hres
        simp only [if_neg h1, if_neg h2, if_neg h3,
          Option.some.injEq] at hres
        subst hres
        have hmem : b ∈ st.bookings := by
          obtain ⟨hi, he⟩ := List.getElem?_eq_some.mp hb
          exact he ▸ List.getElem_mem hi
        have hb1 : 1 ≤ b.seats_booked := hall b hmem
        have hc : b.status = BookingStatus.Confirmed := not_not.mp h2
        refine ⟨?_, ?_, ?_⟩
        · intro b' hb'
          rcases List.mem_or_eq_of_mem_set hb' with hmem' | hmem'
          · exact hall b' hmem'
          · subst hmem'
            simpa using hb1
        · show (0 : Int) ≤ st.trip.available_seats + b.seats_booked
          omega
        · show st.trip.available_seats + b.seats_booked =
            init - confirmedSeats _
          rw [confirmedSeats_set st.bookings idx b _ hb]
          simp only [confSeat, hc]
          simp
          omega

/-- The seat invariant holds after any operation sequence. -/
lemma seatInv_run (init : Int) (st : TripState) (ops : List Op)
    (h : SeatInv init st) : SeatInv init (run st ops) := by
  induction ops generalizing st with
  | nil => exact h
  | cons op ops ih => exact ih (applyOp st op) (seatInv_applyOp init st op h)

/-- C9: starting from a freshly created trip with a nonnegative seat
count and no bookings, any sequence of booking and cancellation
operations keeps available_seats nonnegative and bounded by the
creation value plus the Cancelled-seat sum minus the Confirmed-seat
sum. -/
theorem available_seats_conservation (t : Trip)
    (h0 : 0 ≤ t.available_seats) (ops : List Op) :
    0 ≤ (run ⟨t, []⟩ ops).trip.available_seats ∧
    (run ⟨t, []⟩ ops).trip.available_seats ≤
      t.available_seats + cancelledSeats (run ⟨t, []⟩ ops).bookings -
        confirmedSeats (run ⟨t, []⟩ ops).bookings := by
  have hinv : SeatInv t.available_seats (run ⟨t, []⟩ ops) := by
    refine seatInv_run t.available_seats ⟨t, []⟩ ops ⟨?_, ?_, ?_⟩
    · intro b hb
      cases hb
    · exact h0
    · simp [confirmedSeats]
  obtain ⟨hall, hpos, heq⟩ := hinv
  have hcanc := cancelledSeats_nonneg (run ⟨t, []⟩ ops).bookings hall
  exact ⟨hpos, by omega⟩

/-- Witness for C9: a book-cancel-book sequence on the example trip
(book 2, cancel it, book 3) finishes with 0 available seats, within
the conserved bounds. -/
theorem available_seats_conservation_witness :
    0 ≤ (run ⟨exTrip, []⟩
      [Op.book 7 2 0, Op.cancel 0 7, Op.book 8 3 0]).trip.available_seats ∧
    (run ⟨exTrip, []⟩
      [Op.book 7 2 0, Op.cancel 0 7, Op.book 8 3 0]).trip.available_seats ≤
      exTrip.available_seats +
        cancelledSeats (run ⟨exTrip, []⟩
          [Op.book 7 2 0, Op.cancel 0 7, Op.book 8 3 0]).bookings -
        confirmedSeats (run ⟨exTrip, []⟩
          [Op.book 7 2 0, Op.cancel 0 7, Op.book 8 3 0]).bookings :=
  available_seats_conservation exTrip (by decide)
    [Op.book 7 2 0, Op.cancel 0 7, Op.book 8 3 0]

/-- Every value in driverRatingVals comes from some rating's
driver_rating field. -/
lemma mem_driverRatingVals (rs : List Rating) (dId : Nat) (v : Int)
    (hv : v ∈ driverRatingVals rs dId) :
    ∃ r ∈ rs, r.driver_rating = some v := by
  simp only [driverRatingVals, List.mem_filterMap, List.mem_filter] at hv
  obtain ⟨r, ⟨hr, -⟩, h⟩ := hv
  exact ⟨r, hr, h⟩

/-- Every value in vehicleRatingVals comes from some rating's
vehicle_rating field. -/
lemma mem_vehicleRatingVals (rs : List Rating) (vId : Nat) (v : Int)
    (hv : v ∈ vehicleRatingVals rs vId) :
    ∃ r ∈ rs, r.vehicle_rating = some v := by
  simp only [vehicleRatingVals, List.mem_filterMap, List.mem_filter] at hv
  obtain ⟨r, ⟨hr, -⟩, h⟩ := hv
  exact ⟨r, hr, h⟩

/-- A list of integers, each at least 1, sums to at least its
length. -/
lemma length_le_sum_of_one_le :
    ∀ (vals : List Int), (∀ v ∈ vals, 1 ≤ v) →
      (vals.length : Int) ≤ vals.sum
  | [], _ => by simp
  | x :: xs, h => by
    have hx := h x (List.mem_cons_self x xs)
    have hxs := length_le_sum_of_one_le xs
      fun v hv => h v (List.mem_cons_of_mem x hv)
    simp only [List.length_cons, List.sum_cons]
    push_cast
    omega

/-- A nonempty list of integers, each at least 1, has a strictly
positive rational mean, so the aggregate is truthy for the `if avg:`
check in the source. -/
lemma avgOpt_pos (vals : List Int) (hne : vals ≠ [])
    (h : ∀ v ∈ vals, 1 ≤ v) :
    ∃ a, avgOpt vals = some a ∧ 0 < a := by
  have hlen : 0 < vals.length := List.length_pos.mpr hne
  have hsum : (vals.length : Int) ≤ vals.sum := length_le_sum_of_one_le vals h
  refine ⟨(vals.sum : ℚ) / (vals.length : ℚ), ?_, ?_⟩
  · simp [avgOpt, hne]
  · apply div_pos
    · have hp : (0 : Int) < vals.sum := by omega
      exact_mod_cast hp
    · exact_mod_cast hlen

/-- Appending a rating for driver dId with value dr appends dr to the
driver's rating values. -/
lemma driverRatingVals_append (rs : List Rating) (r : Rating) (dId : Nat)
    (hd : r.driver = some dId) (hv : r.driver_rating = some dr) :
    driverRatingVals (rs ++ [r]) dId = driverRatingVals rs dId ++ [dr] := by
  simp [driverRatingVals, List.filter_append, List.filterMap_append, hd, hv]

/-- Appending a rating for vehicle vId with value vr appends vr to the
vehicle's rating values. -/
lemma vehicleRatingVals_append (rs : List Rating) (r : Rating) (vId : Nat)
    (hd : r.vehicle = some vId) (hv : r.vehicle_rating = some vr) :
    vehicleRatingVals (rs ++ [r]) vId = vehicleRatingVals rs vId ++ [vr] := by
  simp [vehicleRatingVals, List.filter_append, List.filterMap_append, hd, hv]

/-- Helper: the success path of rate_trip_view when the trip has both
a driver and a vehicle and both aggregate means are truthy: the
Rating is inserted and both averages are overwritten with the
recomputed means. -/
lemma rate_trip_success (t : Trip) (userId : Nat) (dr vr : Int)
    (st : RateState) (dId vId : Nat) (a b : ℚ)
    (hd : t.driver = some dId) (hv : t.vehicle = some vId)
    (hc : t.status = TripStatus.Completed)
    (hnr : hasRating st.ratings t.id userId = false)
    (hdr1 : 1 ≤ dr) (hdr5 : dr ≤ 5) (hvr1 : 1 ≤ vr) (hvr5 : vr ≤ 5)
    (ha : avgOpt (driverRatingVals st.ratings dId ++ [dr]) = some a)
    (hb : avgOpt (vehicleRatingVals st.ratings vId ++ [vr]) = some b)
    (hane : a ≠ 0) (hbne : b ≠ 0) :
    rate_trip t userId dr vr st = some
      { ratings := st.ratings ++
          [{ tripId := t.id, user := userId, driver := t.driver,
             vehicle := t.vehicle, driver_rating := some dr,
             vehicle_rating := some vr }]
        driver_avg := a
        vehicle_avg := b } := by
  simp only [rate_trip, hc]
  rw [if_neg (by simp), if_neg (by simp [hnr]),
    if_neg (not_not_intro ⟨hdr1, hdr5, hvr1, hvr5⟩)]
  simp only [hd, hv]
  rw [show driverRatingVals (st.ratings ++
      [{ tripId := t.id, user := userId, driver := some dId,
         vehicle := some vId, driver_rating := some dr,
         vehicle_rating := some vr }]) dId =
      driverRatingVals st.ratings dId ++ [dr] from
    driverRatingVals_append _ _ _ rfl rfl]
  rw [show vehicleRatingVals (st.ratings ++
      [{ tripId := t.id, user := userId, driver := some dId,
         vehicle := some vId, driver_rating := some dr,
         vehicle_rating := some vr }]) vId =
      vehicleRatingVals st.ratings vId ++ [vr] from
    vehicleRatingVals_append _ _ _ rfl rfl]
  rw [ha, hb]
  simp only [if_neg hane, if_neg hbne]

/-- C8: rating is rejected when the trip is not Completed or a rating
for (trip, user) already exists; on success with valid 1-5 stars the
Rating is inserted and the driver's stored average becomes the
arithmetic mean of driver_rating over all ratings referencing that
driver, analogously for the vehicle; in particular a second 5-star
rating after an existing 4-star one yields an average of 4.50. -/
theorem rate_trip_spec (t : Trip) (userId : Nat) (dr vr : Int)
    (st : RateState) :
    (t.status ≠ TripStatus.Completed → rate_trip t userId dr vr st = none) ∧
    (hasRating st.ratings t.id userId = true →
      rate_trip t userId dr vr st = none) ∧
    (∀ dId vId, t.driver = some dId → t.vehicle = some vId →
      t.status = TripStatus.Completed →
      hasRating st.ratings t.id userId = false →
      (∀ v ∈ driverRatingVals st.ratings dId, 1 ≤ v) →
      (∀ v ∈ vehicleRatingVals st.ratings vId, 1 ≤ v) →
      1 ≤ dr → dr ≤ 5 → 1 ≤ vr → vr ≤ 5 →
      ∃ st', rate_trip t userId dr vr st = some st' ∧
        st'.ratings = st.ratings ++
          [{ tripId := t.id, user := userId, driver := t.driver,
             vehicle := t.vehicle, driver_rating := some dr,
             vehicle_rating := some vr }] ∧
        avgOpt (driverRatingVals st'.ratings dId) = some st'.driver_avg ∧
        avgOpt (vehicleRatingVals st'.ratings vId) = some st'.vehicle_avg) ∧
    (t.driver = none → ∀ st', rate_trip t userId dr vr st = some st' →
      st'.driver_avg = st.driver_avg) ∧
    (rate_trip exCompletedSt.trip 7 5 5 exRateSt).map
        (fun s => s.driver_avg) = some ((9 : ℚ) / 2) := by
  refine ⟨fun h => by simp [rate_trip, h], fun h => ?_, ?_, ?_, ?_⟩
  · simp only [rate_trip]
    split_ifs with h1 <;> simp_all
  · intro dId vId hd hv hc hnr hdvals hvvals hdr1 hdr5 hvr1 hvr5
    obtain ⟨a, ha, hapos⟩ :=
      avgOpt_pos (driverRatingVals st.ratings dId ++ [dr]) (by simp)
        (by
          intro v hv'
          rcases List.mem_append.mp hv' with h' | h'
          · exact hdvals v h'
          · simp only [List.mem_singleton] at h'
            omega)
    obtain ⟨b, hbq, hbpos⟩ :=
      avgOpt_pos (vehicleRatingVals st.ratings vId ++ [vr]) (by simp)
        (by
          intro v hv'
          rcases List.mem_append.mp hv' with h' | h'
          · exact hvvals v h'
          · simp only [List.mem_singleton] at h'
            omega)
    refine ⟨_, rate_trip_success t userId dr vr st dId vId a b hd hv hc hnr
      hdr1 hdr5 hvr1 hvr5 ha hbq (ne_of_gt hapos) (ne_of_gt hbpos),
      rfl, ?_, ?_⟩
    · simp only
      rw [show driverRatingVals (st.ratings ++
          [{ tripId := t.id, user := userId, driver := t.driver,
             vehicle := t.vehicle, driver_rating := some dr,
             vehicle_rating := some vr }]) dId =
          driverRatingVals st.ratings dId ++ [dr] from
        driverRatingVals_append _ _ _ (by simp [hd]) rfl]
      exact ha
    · simp only
      rw [show vehicleRatingVals (st.ratings ++
          [{ tripId := t.id, user := userId, driver := t.driver,
             vehicle := t.vehicle, driver_rating := some dr,
             vehicle_rating := some vr }]) vId =
          vehicleRatingVals st.ratings vId ++ [vr] from
        vehicleRatingVals_append _ _ _ (by simp [hv]) rfl]
      exact hbq
  · intro hdn st' h
    simp only [rate_trip] at h
    split_ifs at h with h1 h2 h3
    simp only [hdn, Option.some.injEq] at h
    subst h
    rfl
  · rw [rate_trip_success exCompletedSt.trip 7 5 5 exRateSt 1 1
      ((9 : ℚ) / 2) ((9 : ℚ) / 2) rfl rfl rfl (by decide)
      (by decide) (by decide) (by decide) (by decide)
      (by
        rw [show driverRatingVals exRateSt.ratings 1 = [4] from rfl]
        norm_num [avgOpt])
      (by
        rw [show vehicleRatingVals exRateSt.ratings 1 = [4] from rfl]
        norm_num [avgOpt])
      (by norm_num) (by norm_num)]
    rfl

/-- Witness for C8: rating the Completed example trip 5 stars, with a
4-star rating for the same driver already recorded, succeeds, and the
stored averages equal the recomputed aggregate means. -/
theorem rate_trip_spec_witness :
    ∃ st', rate_trip exCompletedSt.trip 7 5 5 exRateSt = some st' ∧
      st'.ratings = exRateSt.ratings ++
        [{ tripId := exCompletedSt.trip.id, user := 7,
           driver := exCompletedSt.trip.driver,
           vehicle := exCompletedSt.trip.vehicle,
           driver_rating := some 5, vehicle_rating := some 5 }] ∧
      avgOpt (driverRatingVals st'.ratings 1) = some st'.driver_avg ∧
      avgOpt (vehicleRatingVals st'.ratings 1) = some st'.vehicle_avg :=
  (rate_trip_spec exCompletedSt.trip 7 5 5 exRateSt).2.2.1 1 1 rfl rfl rfl
    (by decide) (by decide) (by decide) (by decide) (by decide)
    (by decide) (by decide)

end TripCore
